import Mathlib

/-!
Verification of the hvostiki-backend recurrence/notification core
(`tracker/utils.py`, `tracker/models.py`, `tracker/tasks.py`).

Modelling conventions:
* A calendar date is its proleptic-Gregorian ordinal (`date.toordinal()` in
  Python, `0001-01-01 ↦ 1`), carried as an `Int`.
* A datetime is the number of minutes since ordinal 0 at midnight, carried as
  an `Int`: day `d` at `h:m` is `d * 1440 + h * 60 + m`.  The scheduler in
  `tracker/tasks.py` only reads the hour, the minute and the date of a
  datetime, so sub-minute precision is irrelevant and is not carried.
* Machine integers and Python ints are modelled as `Int`/`Nat` (Python ints
  are unbounded, so no wrap-around is involved).  `%` and `/` on `Int` are
  Lean's Euclidean division, which agrees with Python's floor division and
  modulo for the positive divisors used here.
-/

/-- Is `y` a leap year in the proleptic Gregorian calendar (Python
`calendar.isleap`). -/
def isLeap (y : Nat) : Bool :=
  (y % 4 == 0 && y % 100 != 0) || (y % 400 == 0)

/-- Number of days of month `m` (1-12) of year `y`. -/
def daysInMonth (y m : Nat) : Nat :=
  if m = 2 then (if isLeap y then 29 else 28)
  else if m = 4 ∨ m = 6 ∨ m = 9 ∨ m = 11 then 30
  else 31

/-- Days strictly before year `y` (proleptic Gregorian). -/
def daysBeforeYear (y : Nat) : Nat :=
  365 * (y - 1) + (y - 1) / 4 - (y - 1) / 100 + (y - 1) / 400

/-- Days of year `y` strictly before month `m`. -/
def daysBeforeMonth (y m : Nat) : Nat :=
  ((List.range (m - 1)).map (fun k => daysInMonth y (k + 1))).sum

/-- `fromYMD y m d` is Python's `date(y, m, d).toordinal()`
(`0001-01-01 ↦ 1`). -/
def fromYMD (y m d : Nat) : Int :=
  (daysBeforeYear y + daysBeforeMonth y m + d : Nat)

/-- ISO weekday of an ordinal date: Monday = 1 .. Sunday = 7 (Python
`date.isoweekday()`; ordinal 1, `0001-01-01`, is a Monday). -/
def isoweekday (n : Int) : Int :=
  (n - 1) % 7 + 1

/-- Day-of-month component of an ordinal date (Python `date.day`), computed
with the standard civil-from-days conversion (shifting the epoch to
`0000-03-01`, ordinal `-305`). -/
def dayOfMonth (n : Int) : Int :=
  let z := n + 305
  let doe := z % 146097
  let yoe := (doe - doe / 1460 + doe / 36524 - doe / 146096) / 365
  let doy := doe - (365 * yoe + yoe / 4 - yoe / 100)
  let mp := (5 * doy + 2) / 153
  doy - (153 * mp + 2) / 5 + 1

example : fromYMD 2024 1 1 = 738886 := by decide
example : fromYMD 2024 1 14 = 738899 := by decide
example : fromYMD 2024 4 1 = 738977 := by decide
example : fromYMD 2024 4 30 = 739006 := by decide
example : fromYMD 2024 6 1 = 739038 := by decide
example : isoweekday (fromYMD 2024 1 1) = 1 := by decide
example : isoweekday (fromYMD 2024 1 4) = 4 := by decide
example : isoweekday (fromYMD 2024 6 1) = 6 := by decide
example : dayOfMonth (fromYMD 2024 6 1) = 1 := by decide
example : dayOfMonth (fromYMD 2024 4 30) = 30 := by decide
example : dayOfMonth (fromYMD 2024 2 29) = 29 := by decide
example : dayOfMonth (fromYMD 2023 12 31) = 31 := by decide
example : dayOfMonth (fromYMD 1 1 1) = 1 := by decide

/-- Python `datetime.time`: wall-clock time of day (the `TimeField` value of
`tracker/models.py` line 262). -/
structure Time where
  hour : Nat
  minute : Nat
  second : Nat
  microsecond : Nat
deriving DecidableEq, Repr

/-- `tracker/utils.py` lines 85-94, `shift_time_by_minutes`: attach the time
to the date 2000-01-01, add `delta` whole minutes and keep only the time of
day, i.e. wall-clock arithmetic modulo 24 h with the date rollover dropped.
Seconds and microseconds are unchanged because the delta is whole minutes.
(The `value is None` guard and the `datetime` year range 1..9999, which only
matters for deltas of more than about five hundred million minutes, are not
modelled.) -/
def shift_time_by_minutes (value : Time) (delta_minutes : Int) : Time :=
  let total := (((value.hour : Int) * 60 + value.minute) + delta_minutes) % 1440
  { hour := (total / 60).toNat
    minute := (total % 60).toNat
    second := value.second
    microsecond := value.microsecond }

example : shift_time_by_minutes ⟨6, 0, 0, 0⟩ 180 = ⟨9, 0, 0, 0⟩ := by decide
example : shift_time_by_minutes ⟨0, 0, 30, 0⟩ (-30) = ⟨23, 30, 30, 0⟩ := by decide

/-- `RecurrenceFrequency` (`tracker/models.py` lines 212-215): the three
values the `frequency` CharField may take. -/
inductive Frequency where
  | daily
  | weekly
  | monthly
deriving DecidableEq, Repr

/-- `RecurrenceRule` (`tracker/models.py` lines 218-230).  `week_days` and
`month_days` are nullable JSON lists of ints; `end_date` is a nullable date.
`interval` is stored but never read by the occurrence logic. -/
structure RecurrenceRule where
  frequency : Frequency
  interval : Nat
  week_days : Option (List Int)
  month_days : Option (List Int)
  end_date : Option Int
deriving DecidableEq, Repr

/-- The fields of an event that `generate_occurrences` reads (the function is
duck-typed; `tracker/utils.py` lines 26-55 access exactly `start_date`,
`is_recurring` and `recurrence`). -/
structure OccEvent where
  start_date : Int
  is_recurring : Bool
  recurrence : Option RecurrenceRule
deriving DecidableEq, Repr

/-- `tracker/utils.py` line 39: `if rule.end_date and current > rule.end_date:
break`.  `endOk rule day` is the negation of the break condition (a stored
date is always truthy; `None` is falsy). -/
def endOk (rule : RecurrenceRule) (day : Int) : Bool :=
  match rule.end_date with
  | none => true
  | some ed => decide (day ≤ ed)

/-- `tracker/utils.py` lines 42-51: whether the loop body appends `current`.
`daily` always matches; `weekly` requires `current.isoweekday() in
(rule.week_days or [])` and `monthly` requires `current.day in
(rule.month_days or [])` (Python's `x or []` maps both `None` and `[]` to
`[]`, which `Option.getD []` reproduces for membership). -/
def matchesRule (rule : RecurrenceRule) (day : Int) : Bool :=
  match rule.frequency with
  | .daily => true
  | .weekly => decide (isoweekday day ∈ rule.week_days.getD [])
  | .monthly => decide (dayOfMonth day ∈ rule.month_days.getD [])

/-- The `while current <= date_to` loop of `tracker/utils.py` lines 38-53,
written with an explicit fuel so that it is structural; `occLoop` below
supplies enough fuel for the loop to run to its exit condition. -/
def occLoopFuel : Nat → RecurrenceRule → Int → Int → List Int
  | 0, _, _, _ => []
  | fuel + 1, rule, current, date_to =>
    if current ≤ date_to then
      if endOk rule current = false then []
      else
        (if matchesRule rule current = true then [current] else [])
          ++ occLoopFuel fuel rule (current + 1) date_to
    else []

/-- The recurring-event loop of `generate_occurrences`, from `current` to
`date_to` (`tracker/utils.py` lines 38-53). -/
def occLoop (rule : RecurrenceRule) (current date_to : Int) : List Int :=
  occLoopFuel (date_to + 1 - current).toNat rule current date_to

/-- `generate_occurrences` (`tracker/utils.py` lines 26-55).  `none` models
the only uncaught exception: a recurring event whose `recurrence` is `None`
reaches `rule.end_date` inside the loop body and raises `AttributeError`
(which only happens when the loop is entered, i.e. when
`max(start_date, date_from) <= date_to`). -/
def generate_occurrences (event : OccEvent) (date_from date_to : Int) :
    Option (List Int) :=
  let current := max event.start_date date_from
  if !event.is_recurring then
    some (if date_from ≤ event.start_date ∧ event.start_date ≤ date_to
          then [event.start_date] else [])
  else
    match event.recurrence with
    | none => if current ≤ date_to then none else some []
    | some rule => some (occLoop rule current date_to)

example :
    generate_occurrences ⟨738886, true, some ⟨.weekly, 1, some [1, 4], none, none⟩⟩
      738886 738899 = some [738886, 738889, 738893, 738896] := by decide
example :
    generate_occurrences ⟨738977, true, some ⟨.monthly, 1, none, some [31], none⟩⟩
      738977 739006 = some [] := by decide
example : generate_occurrences ⟨739038, false, none⟩ 739038 739038 = some [739038] := by
  decide

/-- The exceptions raised by `RecurrenceRule.clean` and `Event.clean`
(`tracker/models.py` lines 232-237 and 278-283); each constructor stands for
one of the four `ValidationError` messages. -/
inductive ValidationError where
  | weekDaysRequired
  | monthDaysRequired
  | recurrenceRequired
  | recurrenceForbidden
deriving DecidableEq, Repr

/-- Python truthiness of a nullable JSON list: `not self.week_days` is `True`
exactly when the field is `None` or the empty list. -/
def pyFalsyDays : Option (List Int) → Bool
  | none => true
  | some l => l.isEmpty

/-- `RecurrenceRule.clean` (`tracker/models.py` lines 232-237): raise for a
weekly rule without `week_days` and for a monthly rule without `month_days`
("without" in the sense of Python falsiness: `None` or `[]`). -/
def RecurrenceRule.clean (r : RecurrenceRule) : Except ValidationError Unit :=
  if r.frequency = Frequency.weekly ∧ pyFalsyDays r.week_days = true then
    .error .weekDaysRequired
  else if r.frequency = Frequency.monthly ∧ pyFalsyDays r.month_days = true then
    .error .monthDaysRequired
  else .ok ()

/-- `Event` (`tracker/models.py` lines 247-283).  `user`, `pet`, `title`,
`description` and the audit timestamps play no part in the occurrence or
notification logic and are omitted; the UUID primary key is modelled as an
`Int`.  Note the stored timezone field is the integer `timezone_offset`
(line 263) — the model declares no field or property named `timezone`. -/
structure Event where
  id : Int
  start_date : Int
  time : Time
  timezone_offset : Int
  is_recurring : Bool
  recurrence : Option RecurrenceRule
deriving DecidableEq, Repr

/-- The projection of an `Event` onto the fields `generate_occurrences`
reads. -/
def Event.toOcc (e : Event) : OccEvent :=
  ⟨e.start_date, e.is_recurring, e.recurrence⟩

/-- `Event.clean` (`tracker/models.py` lines 278-283): a recurring event must
have a recurrence rule, a non-recurring event must not. -/
def Event.clean (e : Event) : Except ValidationError Unit :=
  if e.is_recurring = true ∧ e.recurrence = none then
    .error .recurrenceRequired
  else if e.is_recurring = false ∧ e.recurrence ≠ none then
    .error .recurrenceForbidden
  else .ok ()

/-- The notification ledger: `EventNotificationLog` (`tracker/models.py`
lines 289-295) as the list of its `(event id, occurrence_date)` rows, in
insertion order (`sent_at` is never read by the scheduler and is omitted). -/
abbrev NotifLog := List (Int × Int)

/-- Hour component of a minutes-since-epoch datetime. -/
def hourOf (dt : Int) : Int := dt % 1440 / 60

/-- Minute component of a minutes-since-epoch datetime. -/
def minuteOf (dt : Int) : Int := dt % 60

/-- `datetime.date()` of a minutes-since-epoch datetime, as an ordinal. -/
def dateOf (dt : Int) : Int := dt / 1440

/-- Helper of `digitsToNat?`: read decimal digits, failing on any
non-digit. -/
def digitsToNatAux : List Char → Nat → Option Nat
  | [], acc => some acc
  | c :: cs, acc =>
    if c.isDigit then digitsToNatAux cs (10 * acc + (c.toNat - 48)) else none

/-- A non-empty all-digit character list as a number. -/
def digitsToNat? : List Char → Option Nat
  | [] => none
  | cs => digitsToNatAux cs 0

/-- Strip leading and trailing whitespace. -/
def trimChars (cs : List Char) : List Char :=
  ((cs.dropWhile Char.isWhitespace).reverse.dropWhile Char.isWhitespace).reverse

/-- Python `int(s)` on a string, as used by `int(event.timezone)` in
`tracker/tasks.py` line 29: optional surrounding whitespace, an optional
sign, then decimal digits; anything else raises `ValueError` (`none`).
(Digit-group underscores, accepted by Python, are not modelled.) -/
def pyIntOfString? (s : String) : Option Int :=
  match trimChars s.data with
  | '+' :: rest => (digitsToNat? rest).map (fun n => (n : Int))
  | '-' :: rest => (digitsToNat? rest).map (fun n => -(n : Int))
  | cs => (digitsToNat? cs).map (fun n => (n : Int))

/-- Timezone resolution of `tracker/tasks.py` lines 28-36 given the value of
the event's stored timezone string: first try `int(...)` and add the offset
to `now_utc`; on failure try `pytz.timezone(...)` followed by `astimezone`,
modelled by an external table `tzdb` mapping known timezone names to their
UTC-to-local conversion; if that fails too the event is skipped (`none`). -/
def resolveTz (tzdb : String → Option (Int → Int)) (nowUtc : Int)
    (tz : String) : Option Int :=
  match pyIntOfString? tz with
  | some offset => some (nowUtc + offset)
  | none =>
    match tzdb tz with
    | some toLocal => some (toLocal nowUtc)
    | none => none

/-- `tracker/tasks.py` lines 45-69 for one event, given `today`: look for an
occurrence today (`none` propagates the uncaught `AttributeError` of
`generate_occurrences`, which aborts the whole task), skip if none or if the
ledger already has `(event, today)`, otherwise append the ledger row. -/
def notifStepCore (occE : OccEvent) (id : Int) (today : Int) (log : NotifLog) :
    Option NotifLog :=
  match generate_occurrences occE today today with
  | none => none
  | some occurrences =>
    if occurrences.isEmpty then some log
    else if (id, today) ∈ log then some log
    else some (log ++ [(id, today)])

/-- The scheduler's per-event notification step (`tracker/tasks.py` lines
45-69) for an `Event` and a given local date `today`. -/
def notificationStep (log : NotifLog) (event : Event) (today : Int) :
    Option NotifLog :=
  notifStepCore event.toOcc event.id today log

/-- `tracker/tasks.py` lines 38-69 for one event, given the outcome of
timezone resolution: `none` there is the `continue` of line 36; then skip
unless the local hour and minute equal the event's stored time (lines 39-43),
and run the notification step for `now_local.date()`. -/
def processResolved (nowLocal? : Option Int) (time : Time) (occE : OccEvent)
    (id : Int) (log : NotifLog) : Option NotifLog :=
  match nowLocal? with
  | none => some log
  | some nowLocal =>
    if hourOf nowLocal ≠ (time.hour : Int) ∨ minuteOf nowLocal ≠ (time.minute : Int) then
      some log
    else
      notifStepCore occE id (dateOf nowLocal) log

/-- `tracker/tasks.py` lines 29 and 33 read `event.timezone`.  The `Event`
model of `tracker/models.py` (lines 247-283) declares `timezone_offset` but
no field, property or method named `timezone`, so on every stored event this
attribute access raises `AttributeError`; the lookup is therefore `none`.
The two bare `except Exception` handlers (lines 31 and 35) catch the error
both times and the loop `continue`s (line 36). -/
def Event.timezoneAttr : Event → Option String := fun _ => none

/-- One iteration of the event loop of `send_event_notifications`
(`tracker/tasks.py` lines 24-69) run against the `Event` model of
`tracker/models.py`: resolve `event.timezone` via `Event.timezoneAttr`
(always `AttributeError`, hence skip), else proceed with lines 38-69. -/
def processEventModels (tzdb : String → Option (Int → Int)) (nowUtc : Int)
    (log : NotifLog) (event : Event) : Option NotifLog :=
  match event.timezoneAttr with
  | none => some log
  | some tz =>
    processResolved (resolveTz tzdb nowUtc tz) event.time event.toOcc event.id log

/-- `send_event_notifications` (`tracker/tasks.py` lines 18-69) over the
stored events, composed with the `Event` model of `tracker/models.py`:
iterate the events sequentially, threading the `EventNotificationLog` state;
`none` models an uncaught exception aborting the task. -/
def send_event_notifications (tzdb : String → Option (Int → Int))
    (nowUtc : Int) : List Event → NotifLog → Option NotifLog
  | [], log => some log
  | event :: rest, log =>
    match processEventModels tzdb nowUtc log event with
    | none => none
    | some log2 => send_event_notifications tzdb nowUtc rest log2

/-- The event record `send_event_notifications` dereferences: identical to
`Event` except that the stored timezone is the string attribute
`event.timezone` that `tracker/tasks.py` lines 25-36 parse (old format: an
IANA name such as "Europe/Amsterdam"; new format: the offset minutes written
as a string, which is what `EventSerializer.validate` stores —
`tracker/serializers.py` line 240).  The `Event` model in the snapshot's
`tracker/models.py` does not declare this attribute; see
`Event.timezoneAttr`. -/
structure TaskEvent where
  id : Int
  start_date : Int
  time : Time
  timezone : String
  is_recurring : Bool
  recurrence : Option RecurrenceRule
deriving DecidableEq, Repr

/-- The projection of a `TaskEvent` onto the fields `generate_occurrences`
reads. -/
def TaskEvent.toOcc (e : TaskEvent) : OccEvent :=
  ⟨e.start_date, e.is_recurring, e.recurrence⟩

/-- One iteration of the event loop of `send_event_notifications`
(`tracker/tasks.py` lines 24-69) over the event record the task assumes
(`TaskEvent`). -/
def processEventTask (tzdb : String → Option (Int → Int)) (nowUtc : Int)
    (log : NotifLog) (event : TaskEvent) : Option NotifLog :=
  processResolved (resolveTz tzdb nowUtc event.timezone) event.time
    event.toOcc event.id log

/-- The event sweep of `send_event_notifications` over `TaskEvent` records
(`tracker/tasks.py` lines 18-69). -/
def sweepTask (tzdb : String → Option (Int → Int)) (nowUtc : Int) :
    List TaskEvent → NotifLog → Option NotifLog
  | [], log => some log
  | event :: rest, log =>
    match processEventTask tzdb nowUtc log event with
    | none => none
    | some log2 => sweepTask tzdb nowUtc rest log2

/-- The log-message trace of one iteration of the event loop.
`tracker/tasks.py` configures no logger and contains no logging or print
call on any path of `send_event_notifications` (lines 18-69): neither the
skip on an unresolvable timezone (the bare `continue` of line 36) nor any
later branch emits a message. -/
def processEventTrace (tzdb : String → Option (Int → Int)) (nowUtc : Int)
    (event : TaskEvent) : List String :=
  match resolveTz tzdb nowUtc event.timezone with
  | none => []
  | some _ => []

/-- The log-message trace of a whole sweep (concatenation of the per-event
traces). -/
def sweepTrace (tzdb : String → Option (Int → Int)) (nowUtc : Int) :
    List TaskEvent → List String
  | [] => []
  | event :: rest => processEventTrace tzdb nowUtc event ++ sweepTrace tzdb nowUtc rest

/-- A timezone database with no known names (the pytz branch then always
raises `UnknownTimeZoneError`). -/
def tzdbEmpty : String → Option (Int → Int) := fun _ => none

/-- The event of the C1 scenario: `time=09:00`, `timezone_offset=180`,
non-recurring with `start_date = 2024-06-01`. -/
def c1Event : Event := ⟨1, 739038, ⟨9, 0, 0, 0⟩, 180, false, none⟩

/-- `now_utc = 2024-06-01T06:00:00Z` in minutes. -/
def c1NowUtc : Int := 739038 * 1440 + 360

/-- A stored timezone in the legacy IANA format, unknown to the running
pytz installation under `tzdbEmpty`. -/
def ianaName : String := "Mars/Olympus"

/-- The offset-string format the serializer writes for UTC+3. -/
def offsetStr : String := "180"

/-- A `TaskEvent` whose stored timezone can be parsed neither as an integer
nor as a known timezone name. -/
def badTzEvent : TaskEvent := ⟨11, 739038, ⟨9, 0, 0, 0⟩, ianaName, false, none⟩

/-- A well-formed `TaskEvent` due at the C1 scenario instant. -/
def goodTzEvent : TaskEvent := ⟨12, 739038, ⟨9, 0, 0, 0⟩, offsetStr, false, none⟩

example : pyIntOfString? offsetStr = some 180 := by decide
example : pyIntOfString? ianaName = none := by decide
example : sweepTask tzdbEmpty c1NowUtc [goodTzEvent] [] = some [(12, 739038)] := by
  decide
example : sweepTask tzdbEmpty c1NowUtc [badTzEvent, goodTzEvent] [] =
    some [(12, 739038)] := by decide

/-- Membership in the fuelled loop: a day is produced iff it lies in the
window, is reached before the fuel runs out, is not past `end_date`, and
matches the rule's frequency test.  (The early `break` excludes exactly the
days past `end_date` because iteration ascends.) -/
theorem mem_occLoopFuel (rule : RecurrenceRule) :
    ∀ (fuel : Nat) (current date_to d : Int),
      d ∈ occLoopFuel fuel rule current date_to ↔
        current ≤ d ∧ d ≤ date_to ∧ d < current + fuel ∧
          endOk rule d = true ∧ matchesRule rule d = true := by
  intro fuel
  induction fuel with
  | zero =>
    intro current date_to d
    simp only [occLoopFuel, List.not_mem_nil, false_iff, not_and]
    intro h1 _ h3
    exact absurd h3 (by omega)
  | succ fuel ih =>
    intro current date_to d
    simp only [occLoopFuel]
    by_cases hcd : current ≤ date_to
    · simp only [if_pos hcd]
      by_cases hbrk : endOk rule current = false
      · simp only [if_pos hbrk, List.not_mem_nil, false_iff, not_and]
        intro h1 h2 h3 h4
        cases hED : rule.end_date with
        | none => simp [endOk, hED] at hbrk
        | some ed =>
          simp only [endOk, hED, decide_eq_false_iff_not, decide_eq_true_eq,
            not_le] at hbrk h4
          omega
      · simp only [if_neg hbrk, List.mem_append]
        rw [ih (current + 1) date_to d]
        have hend : endOk rule current = true := by
          revert hbrk; cases endOk rule current <;> simp
        by_cases hm : matchesRule rule current = true
        · simp only [if_pos hm, List.mem_singleton]
          constructor
          · rintro (rfl | ⟨h1, h2, h3, h4, h5⟩)
            · exact ⟨le_refl _, hcd, by push_cast; omega, hend, hm⟩
            · exact ⟨by omega, h2, by push_cast at h3 ⊢; omega, h4, h5⟩
          · rintro ⟨h1, h2, h3, h4, h5⟩
            by_cases hdc : d = current
            · exact Or.inl hdc
            · exact Or.inr ⟨by omega, h2, by push_cast at h3 ⊢; omega, h4, h5⟩
        · simp only [if_neg hm, List.not_mem_nil, false_or]
          constructor
          · rintro ⟨h1, h2, h3, h4, h5⟩
            exact ⟨by omega, h2, by push_cast at h3 ⊢; omega, h4, h5⟩
          · rintro ⟨h1, h2, h3, h4, h5⟩
            have hdc : d ≠ current := by
              intro h; rw [h] at h5; exact hm h5
            exact ⟨by omega, h2, by push_cast at h3 ⊢; omega, h4, h5⟩
    · simp only [if_neg hcd, List.not_mem_nil, false_iff, not_and]
      intro h1 h2
      exact absurd (le_trans h1 h2) hcd

/-- Membership in the recurring-event loop with the fuel bound discharged. -/
theorem mem_occLoop (rule : RecurrenceRule) (current date_to d : Int) :
    d ∈ occLoop rule current date_to ↔
      current ≤ d ∧ d ≤ date_to ∧ endOk rule d = true ∧ matchesRule rule d = true := by
  rw [occLoop, mem_occLoopFuel]
  constructor
  · rintro ⟨h1, h2, _, h4, h5⟩
    exact ⟨h1, h2, h4, h5⟩
  · rintro ⟨h1, h2, h4, h5⟩
    exact ⟨h1, h2, by omega, h4, h5⟩

/-- On a recurring event with a rule, `generate_occurrences` is the loop from
`max(start_date, date_from)`. -/
theorem generate_occurrences_recurring (e : OccEvent) (rule : RecurrenceRule)
    (date_from date_to : Int) (hrec : e.is_recurring = true)
    (hrule : e.recurrence = some rule) :
    generate_occurrences e date_from date_to =
      some (occLoop rule (max e.start_date date_from) date_to) := by
  simp [generate_occurrences, hrec, hrule]

/-- The `end_date` guard in claim language. -/
theorem endOk_iff (rule : RecurrenceRule) (d : Int) :
    endOk rule d = true ↔ ∀ ed, rule.end_date = some ed → d ≤ ed := by
  cases h : rule.end_date <;> simp [endOk, h]

/-- C3: for every non-recurring event and every window with
`date_from ≤ date_to`, `generate_occurrences` returns exactly `[start_date]`
when `date_from ≤ start_date ≤ date_to` and `[]` otherwise (and raises
nothing). -/
theorem C3_non_recurring (e : OccEvent) (date_from date_to : Int)
    (hrec : e.is_recurring = false) (_hw : date_from ≤ date_to) :
    (date_from ≤ e.start_date ∧ e.start_date ≤ date_to →
        generate_occurrences e date_from date_to = some [e.start_date]) ∧
      (¬(date_from ≤ e.start_date ∧ e.start_date ≤ date_to) →
        generate_occurrences e date_from date_to = some []) := by
  constructor
  · intro h
    simp [generate_occurrences, hrec, h]
  · intro h
    simp [generate_occurrences, hrec, h]

/-- C3 witness: the non-recurring event with `start_date` ordinal 7 in the
window 5..10 yields exactly `[7]`. -/
theorem C3_witness :
    generate_occurrences ⟨7, false, none⟩ 5 10 = some [7] :=
  (C3_non_recurring ⟨7, false, none⟩ 5 10 rfl (by decide)).1 (by decide)

/-- C4: for a weekly recurring event, a day is in the output of
`generate_occurrences` iff it lies in `[max(start_date, date_from), date_to]`,
does not exceed `end_date` when set, and its ISO weekday is in `week_days`;
and the spec scenario (`week_days=[1,4]`, `start_date=2024-01-01`, window
2024-01-01..2024-01-14) yields exactly 2024-01-01, 2024-01-04, 2024-01-08
and 2024-01-11. -/
theorem C4_weekly :
    (∀ (e : OccEvent) (rule : RecurrenceRule) (date_from date_to d : Int)
        (L : List Int),
        e.is_recurring = true → e.recurrence = some rule →
        rule.frequency = Frequency.weekly →
        generate_occurrences e date_from date_to = some L →
        (d ∈ L ↔
          max e.start_date date_from ≤ d ∧ d ≤ date_to ∧
            (∀ ed, rule.end_date = some ed → d ≤ ed) ∧
            isoweekday d ∈ rule.week_days.getD [])) ∧
      generate_occurrences
          ⟨738886, true, some ⟨.weekly, 1, some [1, 4], none, none⟩⟩
          738886 738899 = some [738886, 738889, 738893, 738896] := by
  constructor
  · intro e rule date_from date_to d L hrec hrule hfreq hgen
    rw [generate_occurrences_recurring e rule date_from date_to hrec hrule] at hgen
    obtain rfl := Option.some.inj hgen
    rw [mem_occLoop]
    simp only [endOk_iff, matchesRule, hfreq, decide_eq_true_eq]
  · decide

/-- C4 witness: 2024-01-04 (a Thursday) is among the scenario's occurrences,
by the membership characterisation. -/
theorem C4_witness :
    (738889 : Int) ∈ [(738886 : Int), 738889, 738893, 738896] :=
  (C4_weekly.1 ⟨738886, true, some ⟨.weekly, 1, some [1, 4], none, none⟩⟩
      ⟨.weekly, 1, some [1, 4], none, none⟩ 738886 738899 738889
      [738886, 738889, 738893, 738896] rfl rfl rfl (by decide)).mpr (by decide)

/-- C5: every date produced for a recurring event lies in
`[date_from, date_to]`, is at least `start_date`, and never exceeds a set
`end_date`; conversely the bound is inclusive — a day equal to `end_date`
that is inside the window, at least `start_date` and matches the rule is
produced. -/
theorem C5_recurring_bounds :
    ∀ (e : OccEvent) (rule : RecurrenceRule) (date_from date_to : Int)
      (L : List Int),
      e.is_recurring = true → e.recurrence = some rule → date_from ≤ date_to →
      generate_occurrences e date_from date_to = some L →
      ((∀ d ∈ L, date_from ≤ d ∧ d ≤ date_to ∧ e.start_date ≤ d ∧
          ∀ ed, rule.end_date = some ed → d ≤ ed) ∧
        (∀ ed, rule.end_date = some ed → max e.start_date date_from ≤ ed →
          ed ≤ date_to → matchesRule rule ed = true → ed ∈ L)) := by
  intro e rule date_from date_to L hrec hrule _hw hgen
  rw [generate_occurrences_recurring e rule date_from date_to hrec hrule] at hgen
  obtain rfl := Option.some.inj hgen
  constructor
  · intro d hd
    rw [mem_occLoop] at hd
    obtain ⟨h1, h2, h3, _⟩ := hd
    exact ⟨le_trans (le_max_right _ _) h1, h2, le_trans (le_max_left _ _) h1,
      (endOk_iff rule d).mp h3⟩
  · intro ed hed hmax hle hmatch
    rw [mem_occLoop]
    refine ⟨hmax, hle, ?_, hmatch⟩
    simp [endOk, hed]

/-- C5 witness: with `start_date = 10`, a daily rule ending at 15 and window
5..20, the day equal to `end_date` is produced. -/
theorem C5_witness : (15 : Int) ∈ [(10 : Int), 11, 12, 13, 14, 15] :=
  (C5_recurring_bounds ⟨10, true, some ⟨.daily, 1, none, none, some 15⟩⟩
      ⟨.daily, 1, none, none, some 15⟩ 5 20 [10, 11, 12, 13, 14, 15] rfl rfl
      (by decide) (by decide)).2 15 rfl (by decide) (by decide) (by decide)

/-- C6: for a monthly recurring event, a day in the window (and within the
start/end bounds) is produced iff its day-of-month is in `month_days` — no
clamping or rollover; and the spec scenario `month_days=[31]` over April 2024
(a 30-day month) produces nothing. -/
theorem C6_monthly :
    (∀ (e : OccEvent) (rule : RecurrenceRule) (date_from date_to d : Int)
        (L : List Int),
        e.is_recurring = true → e.recurrence = some rule →
        rule.frequency = Frequency.monthly →
        generate_occurrences e date_from date_to = some L →
        (d ∈ L ↔
          max e.start_date date_from ≤ d ∧ d ≤ date_to ∧
            (∀ ed, rule.end_date = some ed → d ≤ ed) ∧
            dayOfMonth d ∈ rule.month_days.getD [])) ∧
      generate_occurrences
          ⟨738977, true, some ⟨.monthly, 1, none, some [31], none⟩⟩
          738977 739006 = some [] := by
  constructor
  · intro e rule date_from date_to d L hrec hrule hfreq hgen
    rw [generate_occurrences_recurring e rule date_from date_to hrec hrule] at hgen
    obtain rfl := Option.some.inj hgen
    rw [mem_occLoop]
    simp only [endOk_iff, matchesRule, hfreq, decide_eq_true_eq]
  · decide

/-- C6 witness: 2024-06-01 is produced by a monthly rule with
`month_days=[1]` on the single-day window 2024-06-01..2024-06-01. -/
theorem C6_witness : (739038 : Int) ∈ [(739038 : Int)] :=
  (C6_monthly.1 ⟨739038, true, some ⟨.monthly, 1, none, some [1], none⟩⟩
      ⟨.monthly, 1, none, some [1], none⟩ 739038 739038 739038 [739038]
      rfl rfl rfl (by decide)).mpr (by decide)

/-- C10: `generate_occurrences` is total on rules violating the validation
invariant — a weekly rule whose `week_days` is null or empty, or a monthly
rule whose `month_days` is null or empty, raises nothing and produces the
empty sequence on every window. -/
theorem C10_degenerate_days_empty :
    ∀ (e : OccEvent) (rule : RecurrenceRule) (date_from date_to : Int),
      e.is_recurring = true → e.recurrence = some rule →
      ((rule.frequency = Frequency.weekly ∧
          (rule.week_days = none ∨ rule.week_days = some [])) ∨
        (rule.frequency = Frequency.monthly ∧
          (rule.month_days = none ∨ rule.month_days = some []))) →
      generate_occurrences e date_from date_to = some [] := by
  intro e rule date_from date_to hrec hrule hdeg
  rw [generate_occurrences_recurring e rule date_from date_to hrec hrule]
  have hnil : occLoop rule (max e.start_date date_from) date_to = [] := by
    apply List.eq_nil_iff_forall_not_mem.mpr
    intro d hd
    rw [mem_occLoop] at hd
    obtain ⟨-, -, -, hm⟩ := hd
    rcases hdeg with ⟨hf, hwd⟩ | ⟨hf, hmd⟩
    · rcases hwd with h | h <;> simp [matchesRule, hf, h] at hm
    · rcases hmd with h | h <;> simp [matchesRule, hf, h] at hm
  rw [hnil]

/-- C10 witness: a weekly rule with `week_days = []` produces `some []` (no
exception, empty output) on the window 0..5. -/
theorem C10_witness :
    generate_occurrences ⟨0, true, some ⟨.weekly, 1, some [], none, none⟩⟩
      0 5 = some [] :=
  C10_degenerate_days_empty ⟨0, true, some ⟨.weekly, 1, some [], none, none⟩⟩
    ⟨.weekly, 1, some [], none, none⟩ 0 5 rfl rfl (Or.inl ⟨rfl, Or.inr rfl⟩)

/-- C7: `shift_time_by_minutes` round-trips — shifting any time of day by any
whole number of minutes and then by its negation restores the time (wall-clock
arithmetic modulo 24 h, day rollover absorbed; seconds and microseconds are
untouched).  The hypotheses state that `t` is a time of day. -/
theorem C7_shift_roundtrip (t : Time) (delta : Int)
    (hh : t.hour < 24) (hm : t.minute < 60) :
    shift_time_by_minutes (shift_time_by_minutes t delta) (-delta) = t := by
  obtain ⟨hr, mi, se, mu⟩ := t
  dsimp only at hh hm
  simp only [shift_time_by_minutes, Time.mk.injEq]
  refine ⟨?_, ?_, trivial, trivial⟩ <;> omega

/-- C7 witness: the stored local time 09:00 shifted to UTC by -180 minutes
and back is 09:00 again. -/
theorem C7_witness :
    shift_time_by_minutes (shift_time_by_minutes ⟨9, 0, 0, 0⟩ (-180)) 180 =
      ⟨9, 0, 0, 0⟩ :=
  C7_shift_roundtrip ⟨9, 0, 0, 0⟩ (-180) (by decide) (by decide)

/-- C8: construction-time validation raises exactly on the four ill-formed
shapes — a weekly rule with null or empty `week_days`, a monthly rule with
null or empty `month_days`, a recurring event without a rule, a non-recurring
event with a rule — and accepts every other combination. -/
theorem C8_clean_validation :
    ∀ (r : RecurrenceRule) (e : Event),
      ((r.clean ≠ Except.ok ()) ↔
        ((r.frequency = Frequency.weekly ∧
            (r.week_days = none ∨ r.week_days = some [])) ∨
          (r.frequency = Frequency.monthly ∧
            (r.month_days = none ∨ r.month_days = some [])))) ∧
      ((e.clean ≠ Except.ok ()) ↔
        ((e.is_recurring = true ∧ e.recurrence = none) ∨
          (e.is_recurring = false ∧ e.recurrence ≠ none))) := by
  intro r e
  have hw : pyFalsyDays r.week_days = true ↔
      (r.week_days = none ∨ r.week_days = some []) := by
    cases h : r.week_days with
    | none => simp [pyFalsyDays]
    | some l => cases l <;> simp [pyFalsyDays]
  have hmo : pyFalsyDays r.month_days = true ↔
      (r.month_days = none ∨ r.month_days = some []) := by
    cases h : r.month_days with
    | none => simp [pyFalsyDays]
    | some l => cases l <;> simp [pyFalsyDays]
  constructor
  · rw [RecurrenceRule.clean]
    split_ifs with h1 h2
    · simp only [ne_eq, reduceCtorEq, not_false_eq_true, true_iff]
      exact Or.inl ⟨h1.1, hw.mp h1.2⟩
    · simp only [ne_eq, reduceCtorEq, not_false_eq_true, true_iff]
      exact Or.inr ⟨h2.1, hmo.mp h2.2⟩
    · simp only [ne_eq, not_true_eq_false, false_iff]
      rintro (⟨hf, hd⟩ | ⟨hf, hd⟩)
      · exact h1 ⟨hf, hw.mpr hd⟩
      · exact h2 ⟨hf, hmo.mpr hd⟩
  · rw [Event.clean]
    split_ifs with h1 h2
    · simp only [ne_eq, reduceCtorEq, not_false_eq_true, true_iff]
      exact Or.inl h1
    · simp only [ne_eq, reduceCtorEq, not_false_eq_true, true_iff]
      exact Or.inr h2
    · simp only [ne_eq, not_true_eq_false, false_iff]
      rintro (h | h)
      · exact h1 h
      · exact h2 h

/-- C2: the scheduler's per-event notification step is idempotent — for an
event that is due today (an occurrence exists) and not yet in the ledger,
running the step twice appends exactly one `(event, today)` row: the first
run appends it, the second run leaves the ledger unchanged, and the final
ledger holds the pair exactly once. -/
theorem C2_step_idempotent (e : Event) (today : Int) (log : NotifLog)
    (occ : List Int)
    (hocc : generate_occurrences e.toOcc today today = some occ)
    (hne : occ ≠ []) (hnew : (e.id, today) ∉ log) :
    notificationStep log e today = some (log ++ [(e.id, today)]) ∧
      notificationStep (log ++ [(e.id, today)]) e today =
        some (log ++ [(e.id, today)]) ∧
      (log ++ [(e.id, today)]).count (e.id, today) = 1 := by
  have hemp : occ.isEmpty = false := by
    cases occ with
    | nil => exact absurd rfl hne
    | cons a l => rfl
  refine ⟨?_, ?_, ?_⟩
  · rw [notificationStep, notifStepCore, hocc]
    simp only [hemp, Bool.false_eq_true, if_false]
    rw [if_neg hnew]
  · rw [notificationStep, notifStepCore, hocc]
    simp only [hemp, Bool.false_eq_true, if_false]
    rw [if_pos (List.mem_append_right log (List.mem_singleton_self _))]
  · rw [List.count_append, List.count_singleton]
    rw [List.count_eq_zero.mpr hnew]
    simp

/-- C2 witness: a non-recurring event due on its own start date, starting
from an empty ledger — two runs of the step yield exactly one row. -/
theorem C2_witness :
    notificationStep [] ⟨2, 738886, ⟨9, 0, 0, 0⟩, 0, false, none⟩ 738886 =
        some [((2 : Int), (738886 : Int))] ∧
      notificationStep [((2 : Int), (738886 : Int))]
          ⟨2, 738886, ⟨9, 0, 0, 0⟩, 0, false, none⟩ 738886 =
        some [((2 : Int), (738886 : Int))] ∧
      List.count ((2 : Int), (738886 : Int)) [((2 : Int), (738886 : Int))] = 1 :=
  C2_step_idempotent ⟨2, 738886, ⟨9, 0, 0, 0⟩, 0, false, none⟩ 738886 []
    [738886] (by decide) (by decide) (by decide)

/-- C1: evaluating `send_event_notifications` (as composed with the `Event`
model of `tracker/models.py`) at the spec scenario — event `time=09:00`,
`timezone_offset=180`, `start_date=2024-06-01`, tick at
`now_utc = 2024-06-01T06:00:00Z`, empty ledger — creates NO `NotificationLog`
entry, whatever the installed timezone database: `event.timezone` does not
exist on the model (only `timezone_offset` does), the `AttributeError` is
swallowed by both `except Exception` handlers, and the event is skipped,
contradicting the claim that the entry for 2024-06-01 is created. -/
theorem C1_tick_creates_no_entry :
    ∀ tzdb : String → Option (Int → Int),
      send_event_notifications tzdb c1NowUtc [c1Event] [] = some [] := by
  intro tzdb
  rfl

/-- C9 counterexample: a tick over one event whose stored timezone
("Mars/Olympus") is neither an integer nor a name known to the timezone
database skips the event (the ledger stays empty and the sweep returns
normally), but its log-message trace is empty — the failure is NOT logged,
refuting the "with the failure logged" part of the claim. -/
theorem C9_counterexample :
    sweepTask tzdbEmpty c1NowUtc [badTzEvent] [] = some [] ∧
      sweepTrace tzdbEmpty c1NowUtc [badTzEvent] = [] :=
  ⟨by decide, by decide⟩

/-- C9 as amended: an event whose stored timezone can be parsed neither as an
integer nor as a known timezone name is skipped for that tick silently
(nothing is logged), the sweep does not raise, and the remaining events are
processed exactly as if the bad event were absent. -/
theorem C9_bad_tz_skipped (tzdb : String → Option (Int → Int)) (nowUtc : Int)
    (bad : TaskEvent) (rest : List TaskEvent) (log : NotifLog)
    (hint : pyIntOfString? bad.timezone = none)
    (hdb : tzdb bad.timezone = none) :
    sweepTask tzdb nowUtc (bad :: rest) log = sweepTask tzdb nowUtc rest log ∧
      sweepTrace tzdb nowUtc (bad :: rest) = sweepTrace tzdb nowUtc rest := by
  have hres : resolveTz tzdb nowUtc bad.timezone = none := by
    rw [resolveTz, hint, hdb]
  constructor
  · simp only [sweepTask, processEventTask, hres, processResolved]
  · simp only [sweepTrace, processEventTrace, hres, List.nil_append]

/-- C9 witness: with an empty timezone database, the sweep over
`[badTzEvent, goodTzEvent]` equals the sweep over `[goodTzEvent]` alone, and
so do the traces. -/
theorem C9_witness :
    sweepTask tzdbEmpty c1NowUtc [badTzEvent, goodTzEvent] [] =
        sweepTask tzdbEmpty c1NowUtc [goodTzEvent] [] ∧
      sweepTrace tzdbEmpty c1NowUtc [badTzEvent, goodTzEvent] =
        sweepTrace tzdbEmpty c1NowUtc [goodTzEvent] :=
  C9_bad_tz_skipped tzdbEmpty c1NowUtc badTzEvent [goodTzEvent] []
    (by decide) rfl

/-- C1 witness: the evaluation at the concrete failing input with the empty
timezone database. -/
theorem C1_witness :
    send_event_notifications tzdbEmpty c1NowUtc [c1Event] [] = some [] :=
  C1_tick_creates_no_entry tzdbEmpty

/-- C8 witness: a weekly rule with `week_days = None` fails validation. -/
theorem C8_witness :
    RecurrenceRule.clean ⟨Frequency.weekly, 1, none, none, none⟩ ≠
      Except.ok () :=
  (C8_clean_validation ⟨Frequency.weekly, 1, none, none, none⟩
      ⟨3, 0, ⟨0, 0, 0, 0⟩, 0, true, none⟩).1.mpr (Or.inl ⟨rfl, Or.inl rfl⟩)
